import Mathlib

/-!
Shallow embedding of the oniazusa Kizuato-style image filter
(`src/oniazusa/filter.py`) and verification of its specification.

Floating-point arithmetic in the source is modelled over `ℚ` (exact
arithmetic); machine integer casts (`int(...)`, `astype(np.uint8)`)
are modelled as explicit truncation toward zero.
-/

namespace Oniazusa

/-- Python `int(x)` applied to a float: truncation toward zero. -/
def pyTrunc (q : ℚ) : ℤ := if 0 ≤ q then ⌊q⌋ else ⌈q⌉

/-- Numpy `np.clip(x, lo, hi)`: values below `lo` become `lo`, above `hi` become `hi`. -/
def npClip (x lo hi : ℚ) : ℚ := min (max x lo) hi

/-- Line 87 of `filter.py`: `dither_strength = np.clip(1.0 - gray * 1.2, 0, 1)`,
per pixel. -/
def ditherStrength (b : ℚ) : ℚ := npClip (1 - b * (6/5)) 0 1

/-- Lines 87-92 of `filter.py`, per pixel: ordered dithering of brightness `b`
against threshold `t` with `N` levels, blended by the dither strength. -/
def ditherPixel (b t : ℚ) (N : ℤ) : ℚ :=
  let s := ditherStrength b
  let d := b + (t - 1/2) / (N : ℚ) * s
  let dc := npClip d 0 1
  let q := ((⌊dc * (N : ℚ)⌋ : ℤ) : ℚ) / (N : ℚ)
  b * (1 - s) + q * s

/-- The ditherer as the spec's §4.5 words state it: dither strength
`s = clamp(1 − brightness×1.2, 0, 1)`, dithered value
`d = brightness + (threshold − 0.5)/N × s`, clamp `d` to [0,1], quantize
`q = floor(d × N) / N`, return `final = brightness×(1−s) + q×s`. -/
def ditherSpecPixel (b t : ℚ) (N : ℤ) : ℚ :=
  let s := min (max (1 - b * (6/5)) 0) 1
  let d := b + (t - 1/2) / (N : ℚ) * s
  let dClamped := min (max d 0) 1
  let q := ((⌊dClamped * (N : ℚ)⌋ : ℤ) : ℚ) / (N : ℚ)
  b * (1 - s) + q * s

lemma npClip01_nonneg (x : ℚ) : 0 ≤ npClip x 0 1 := by
  unfold npClip
  simp only [le_min_iff]
  exact ⟨le_max_right x 0, by norm_num⟩

lemma npClip01_le_one (x : ℚ) : npClip x 0 1 ≤ 1 := min_le_right _ 1

/-- C1: the halftone ditherer computes exactly the spec's per-pixel formulas. -/
theorem dither_matches_spec (b t : ℚ) (N : ℤ)
    (hb0 : 0 ≤ b) (hb1 : b ≤ 1) (ht0 : 0 ≤ t) (ht1 : t < 1) (hN : 2 ≤ N) :
    ditherPixel b t N = ditherSpecPixel b t N := rfl

/-- Witness for C1 at `b = 1/2`, `t = 3/64`, `N = 16`. -/
theorem dither_matches_spec_witness :
    ditherPixel (1/2) (3/64) 16 = ditherSpecPixel (1/2) (3/64) 16 :=
  dither_matches_spec (1/2) (3/64) 16 (by norm_num) (by norm_num)
    (by norm_num) (by norm_num) (by norm_num)

/-- C3: for brightness in [0,1], threshold in [0,1) and N ≥ 2, the blended
output of the halftone ditherer lies in [0,1]. -/
theorem dither_output_in_unit_interval (b t : ℚ) (N : ℤ)
    (hb0 : 0 ≤ b) (hb1 : b ≤ 1) (ht0 : 0 ≤ t) (ht1 : t < 1) (hN : 2 ≤ N) :
    0 ≤ ditherPixel b t N ∧ ditherPixel b t N ≤ 1 := by
  have hNQ : (0 : ℚ) < (N : ℚ) := by exact_mod_cast lt_of_lt_of_le (by norm_num) hN
  unfold ditherPixel ditherStrength
  set s := npClip (1 - b * (6/5)) 0 1 with hs
  have hs0 : 0 ≤ s := npClip01_nonneg _
  have hs1 : s ≤ 1 := npClip01_le_one _
  set d := b + (t - 1/2) / (N : ℚ) * s with hd
  set dc := npClip d 0 1 with hdc
  have hdc0 : 0 ≤ dc := npClip01_nonneg _
  have hdc1 : dc ≤ 1 := npClip01_le_one _
  set q := ((⌊dc * (N : ℚ)⌋ : ℤ) : ℚ) / (N : ℚ) with hq
  have hq0 : 0 ≤ q := by
    apply div_nonneg _ (le_of_lt hNQ)
    exact_mod_cast Int.floor_nonneg.mpr (mul_nonneg hdc0 (le_of_lt hNQ))
  have hq1 : q ≤ 1 := by
    rw [hq, div_le_one hNQ]
    have h1 : dc * (N : ℚ) ≤ (N : ℚ) := by
      calc dc * (N : ℚ) ≤ 1 * (N : ℚ) := by
            exact mul_le_mul_of_nonneg_right hdc1 (le_of_lt hNQ)
        _ = (N : ℚ) := one_mul _
    calc ((⌊dc * (N : ℚ)⌋ : ℤ) : ℚ) ≤ dc * (N : ℚ) := Int.floor_le _
      _ ≤ (N : ℚ) := h1
  constructor
  · have := mul_nonneg hb0 (sub_nonneg.mpr hs1)
    have := mul_nonneg hq0 hs0
    linarith
  · nlinarith [mul_le_mul_of_nonneg_right hb1 (sub_nonneg.mpr hs1),
      mul_le_mul_of_nonneg_right hq1 hs0]

/-- Witness for C3 at `b = 1/4`, `t = 21/64`, `N = 4`. -/
theorem dither_output_in_unit_interval_witness :
    0 ≤ ditherPixel (1/4) (21/64) 4 ∧ ditherPixel (1/4) (21/64) 4 ≤ 1 :=
  dither_output_in_unit_interval (1/4) (21/64) 4 (by norm_num) (by norm_num)
    (by norm_num) (by norm_num) (by norm_num)

/-- C10: for brightness at least 1/1.2 = 5/6, the dither strength is exactly 0
and the ditherer is the identity on the pixel — the threshold and the level
count contribute nothing. -/
theorem bright_pixel_identity (b : ℚ) (hb : 5/6 ≤ b) :
    ditherStrength b = 0 ∧ ∀ (t : ℚ) (N : ℤ), ditherPixel b t N = b := by
  have hstr : ditherStrength b = 0 := by
    unfold ditherStrength npClip
    have h1 : 1 - b * (6/5) ≤ 0 := by linarith
    rw [max_eq_right h1, min_eq_left (by norm_num : (0:ℚ) ≤ 1)]
  refine ⟨hstr, fun t N => ?_⟩
  unfold ditherPixel
  rw [hstr]
  push_cast
  ring_nf

/-- Witness for C10 at `b = 9/10` (and the identity evaluated at `t = 1/8`, `N = 16`). -/
theorem bright_pixel_identity_witness :
    ditherStrength (9/10) = 0 ∧ ∀ (t : ℚ) (N : ℤ), ditherPixel (9/10) t N = 9/10 :=
  bright_pixel_identity (9/10) (by norm_num)

/-- Lines 9-18 of `filter.py`: the raw 8×8 Bayer matrix (integer entries),
before division by 64. -/
def BAYER_RAW : List (List ℕ) := [
  [ 0, 48, 12, 60,  3, 51, 15, 63],
  [32, 16, 44, 28, 35, 19, 47, 31],
  [ 8, 56,  4, 52, 11, 59,  7, 55],
  [40, 24, 36, 20, 43, 27, 39, 23],
  [ 2, 50, 14, 62,  1, 49, 13, 61],
  [34, 18, 46, 30, 33, 17, 45, 29],
  [10, 58,  6, 54,  9, 57,  5, 53],
  [42, 26, 38, 22, 41, 25, 37, 21]]

/-- Normalization of one raw Bayer entry: division by 64.0. -/
def bayNorm (v : ℕ) : ℚ := (v : ℚ) / 64

/-- Normalized matrix `BAYER_8X8 = BAYER_RAW / 64.0`: the normalized threshold pattern. -/
def BAYER_8X8 : List (List ℚ) := BAYER_RAW.map (fun row => row.map bayNorm)

/-- Element access `A[y][x]` of a 2-D integer array, defaulting to 0. -/
def entryN (A : List (List ℕ)) (y x : Nat) : ℕ := (A.getD y []).getD x 0

/-- One row of `np.tile`: the row repeated `c` times horizontally. -/
def tileRow (row : List ℚ) (c : Nat) : List ℚ := (List.replicate c row).flatten

/-- Numpy `np.tile(A, (r, c))`: the block `A` repeated `r` times vertically and
`c` times horizontally. -/
def npTile (A : List (List ℚ)) (r c : Nat) : List (List ℚ) :=
  (List.replicate r (A.map (fun row => tileRow row c))).flatten

/-- The numpy slice `[:h, :w]` of a 2-D array. -/
def slice2 (A : List (List ℚ)) (h w : Nat) : List (List ℚ) :=
  (A.take h).map (fun row => row.take w)

/-- Element access `A[y][x]` of a 2-D array, defaulting to 0 out of range. -/
def entry (A : List (List ℚ)) (y x : Nat) : ℚ := (A.getD y []).getD x 0

/-- Line 83 of `filter.py`:
`bayer = np.tile(BAYER_8X8, (h // 8 + 1, w // 8 + 1))[:h, :w]`. -/
def tiledBayer (h w : Nat) : List (List ℚ) :=
  slice2 (npTile BAYER_8X8 (h / 8 + 1) (w / 8 + 1)) h w

lemma flatten_replicate_getElem? {α : Type} (l : List α) :
    ∀ (r i : Nat), i < r * l.length →
      ((List.replicate r l).flatten)[i]? = l[i % l.length]?
  | 0, i, h => by simp at h
  | r + 1, i, h => by
    rw [List.replicate_succ, List.flatten_cons]
    by_cases hi : i < l.length
    · rw [List.getElem?_append_left hi, Nat.mod_eq_of_lt hi]
    · push_neg at hi
      rw [List.getElem?_append_right hi, Nat.mod_eq_sub_mod hi]
      exact flatten_replicate_getElem? l r (i - l.length)
        (by rw [Nat.succ_mul] at h; omega)

lemma entry_slice2 (A : List (List ℚ)) (h w y x : Nat)
    (hy : y < h) (hx : x < w) :
    entry (slice2 A h w) y x = entry A y x := by
  have hrow : (slice2 A h w)[y]? = (A[y]?).map (fun row => row.take w) := by
    unfold slice2
    rw [List.getElem?_map, List.getElem?_take_of_lt hy]
  unfold entry
  rw [List.getD_eq_getElem?_getD (slice2 A h w) y [], hrow,
    List.getD_eq_getElem?_getD A y []]
  cases A[y]? with
  | none => simp
  | some row =>
    simp only [Option.map_some', Option.getD_some]
    rw [List.getD_eq_getElem?_getD, List.getElem?_take_of_lt hx,
      List.getD_eq_getElem?_getD]

lemma entry_npTile (A : List (List ℚ)) (m r c y x : Nat)
    (hA : ∀ row ∈ A, row.length = m)
    (hy : y < r * A.length) (hx : x < c * m) :
    entry (npTile A r c) y x = entry A (y % A.length) (x % m) := by
  have houter : (npTile A r c)[y]? = (A[y % A.length]?).map (fun row => tileRow row c) := by
    unfold npTile
    rw [flatten_replicate_getElem? (A.map (fun row => tileRow row c)) r y
        (by rwa [List.length_map]),
      List.length_map, List.getElem?_map]
  unfold entry
  rw [List.getD_eq_getElem?_getD (npTile A r c) y [], houter,
    List.getD_eq_getElem?_getD A (y % A.length) []]
  cases hrow : A[y % A.length]? with
  | none => simp
  | some row =>
    simp only [Option.map_some', Option.getD_some]
    have hlen : row.length = m := hA row (List.getElem?_mem hrow)
    unfold tileRow
    rw [List.getD_eq_getElem?_getD,
      flatten_replicate_getElem? row c x (by rw [hlen]; exact hx),
      hlen, List.getD_eq_getElem?_getD]

lemma bayer_raw_length : BAYER_RAW.length = 8 := by decide

lemma bayer_raw_rows : ∀ row ∈ BAYER_RAW, row.length = 8 := by decide

lemma bayer_raw_bound : ∀ row ∈ BAYER_RAW, ∀ v ∈ row, v < 64 := by decide

lemma bayer_length : BAYER_8X8.length = 8 := by
  unfold BAYER_8X8
  rw [List.length_map, bayer_raw_length]

lemma bayer_rows : ∀ row ∈ BAYER_8X8, row.length = 8 := by
  intro row hrow
  unfold BAYER_8X8 at hrow
  obtain ⟨raw, hraw, rfl⟩ := List.mem_map.mp hrow
  rw [List.length_map]
  exact bayer_raw_rows raw hraw

lemma entry_bayer (y x : Nat) (hy : y < 8) (hx : x < 8) :
    entry BAYER_8X8 y x = (entryN BAYER_RAW y x : ℚ) / 64 := by
  have hylen : y < BAYER_RAW.length := by rw [bayer_raw_length]; exact hy
  have hraw : BAYER_RAW[y]? = some (BAYER_RAW[y]) := List.getElem?_eq_getElem hylen
  have hxlen : x < (BAYER_RAW[y]).length := by
    rw [bayer_raw_rows _ (List.getElem_mem hylen)]; exact hx
  have hrawx : (BAYER_RAW[y])[x]? = some ((BAYER_RAW[y])[x]) :=
    List.getElem?_eq_getElem hxlen
  have hrow : BAYER_8X8[y]? = some ((BAYER_RAW[y]).map bayNorm) := by
    unfold BAYER_8X8
    rw [List.getElem?_map, hraw]
    simp only [Option.map_some']
  unfold entry entryN
  rw [List.getD_eq_getElem?_getD BAYER_8X8 y [], hrow,
    List.getD_eq_getElem?_getD BAYER_RAW y [], hraw]
  simp only [Option.getD_some]
  rw [List.getD_eq_getElem?_getD ((BAYER_RAW[y]).map bayNorm) x 0,
    List.getElem?_map, hrawx,
    List.getD_eq_getElem?_getD (BAYER_RAW[y]) x 0, hrawx]
  simp only [Option.map_some', Option.getD_some]
  rfl

/-- C9: every entry of the 8×8 threshold pattern lies in [0,1), and for every
grid extent `h × w` the tiled pattern built by the code satisfies
`tiled[y][x] = BAYER_8X8[y % 8][x % 8]` at every in-range position. -/
theorem bayer_tiling_correct :
    (∀ y < 8, ∀ x < 8, 0 ≤ entry BAYER_8X8 y x ∧ entry BAYER_8X8 y x < 1) ∧
    (∀ h w y x, y < h → x < w →
      entry (tiledBayer h w) y x = entry BAYER_8X8 (y % 8) (x % 8)) := by
  constructor
  · intro y hy x hx
    rw [entry_bayer y x hy hx]
    have hylen : y < BAYER_RAW.length := by rw [bayer_raw_length]; exact hy
    have hn : entryN BAYER_RAW y x < 64 := by
      unfold entryN
      rw [List.getD_eq_getElem?_getD BAYER_RAW y [], List.getElem?_eq_getElem hylen]
      simp only [Option.getD_some]
      have hxlen : x < (BAYER_RAW[y]).length := by
        rw [bayer_raw_rows _ (List.getElem_mem hylen)]; exact hx
      rw [List.getD_eq_getElem?_getD (BAYER_RAW[y]) x 0, List.getElem?_eq_getElem hxlen]
      simp only [Option.getD_some]
      exact bayer_raw_bound _ (List.getElem_mem hylen) _ (List.getElem_mem hxlen)
    constructor
    · positivity
    · rw [div_lt_one (by norm_num : (0:ℚ) < 64)]
      exact_mod_cast hn
  · intro h w y x hy hx
    unfold tiledBayer
    rw [entry_slice2 _ h w y x hy hx]
    rw [entry_npTile BAYER_8X8 8 (h / 8 + 1) (w / 8 + 1) y x bayer_rows
      (by rw [bayer_length]; omega) (by omega), bayer_length]

/-- Witness for C9: entry range at (0,1) and the tiling identity on a 9×9
grid at position (8,3), which wraps to pattern row 0. -/
theorem bayer_tiling_correct_witness :
    (0 ≤ entry BAYER_8X8 0 1 ∧ entry BAYER_8X8 0 1 < 1) ∧
    entry (tiledBayer 9 9) 8 3 = entry BAYER_8X8 (8 % 8) (3 % 8) :=
  ⟨bayer_tiling_correct.1 0 (by norm_num) 1 (by norm_num),
   bayer_tiling_correct.2 9 9 8 3 (by norm_num) (by norm_num)⟩

/-- A W×H color image with 3 channel samples per pixel, samples as exact
rationals (the float stages of the source). -/
structure Img3 where
  h : Nat
  w : Nat
  px : Nat → Nat → Fin 3 → ℚ

/-- A single-channel brightness grid. -/
structure GrayImg where
  h : Nat
  w : Nat
  px : Nat → Nat → ℚ

/-- A W×H×3 integer image (uint8 samples at the output boundary). -/
structure OutImg where
  h : Nat
  w : Nat
  px : Nat → Nat → Fin 3 → ℕ

/-- The `"green"` preset `(210, 240, 200)` (BGR), also the fallback value
`PRESETS["green"]` used by `PRESETS.get`. -/
def PRESETS_green : ℚ × ℚ × ℚ := (210, 240, 200)

/-- Lines 22-27 of `filter.py`: the preset tint table (BGR triples). -/
def PRESETS : List (String × (ℚ × ℚ × ℚ)) :=
  [("green", PRESETS_green),
   ("yellow", (200, 235, 245)),
   ("blue", (240, 215, 195)),
   ("purple", (100, 60, 80))]

/-- Line 95 of `filter.py`: `PRESETS.get(tint, PRESETS["green"])`. -/
def presetsGet (tint : String) : ℚ × ℚ × ℚ := (PRESETS.lookup tint).getD PRESETS_green

/-- Channel `c` of a BGR triple. -/
def tintChannel (t : ℚ × ℚ × ℚ) : Fin 3 → ℚ
  | ⟨0, _⟩ => t.1
  | ⟨1, _⟩ => t.2.1
  | ⟨2, _⟩ => t.2.2

/-- Lines 98-102 of `filter.py`, per pixel and channel:
`result = dithered * tint_bgr[c]`, then `np.clip(result, 0, 255).astype(np.uint8)`
(the uint8 cast truncates toward zero). -/
def palettePixel (q tc : ℚ) : ℕ := (pyTrunc (npClip (q * tc) 0 255)).toNat

/-- The palette mapping as the spec's §4.6 words state it: multiply by the
tint channel, clamp to [0,255], then ROUND to the nearest integer. -/
def paletteSpecPixel (q tc : ℚ) : ℕ := (round (npClip (q * tc) 0 255)).toNat

/-- Lines 74-75 of `filter.py`: `small_w = int(orig_w * scale)` — the Python
`int()` cast truncates toward zero. -/
def downsampleSize (n : Nat) (scale : ℚ) : ℤ := pyTrunc ((n : ℚ) * scale)

/-- Nearest-neighbor `cv2.resize(..., interpolation=cv2.INTER_NEAREST)` (line 105): the
destination pixel (y, x) samples the source at `(⌊y·sh/dh⌋, ⌊x·sw/dw⌋)`,
clamped into range. -/
def resizeNearest (img : OutImg) (dw dh : Nat) : OutImg :=
  { h := dh, w := dw,
    px := fun y x c =>
      img.px (min (y * img.h / dh) (img.h - 1)) (min (x * img.w / dw) (img.w - 1)) c }

/-- The single error `apply_kizuato_style` raises itself (line 49):
`ValueError(f"Could not read image: {input_path}")`. -/
inductive FilterError where
  | valueError (msg : String)
deriving DecidableEq

/-- Lines 51-105 of `filter.py`, after a successful read. The cv2 library
stages external to the algorithmic core (bilateral/Canny/Gaussian
preprocessing of lines 55-71, the INTER_AREA shrink of line 76, the BGR→gray
conversion of line 79) are opaque function parameters; every computation
written out in the source is embedded exactly. -/
def applyCore (preprocess : Img3 → Img3)
    (resizeArea : Img3 → Nat → Nat → Img3)
    (toGray : Img3 → GrayImg)
    (img0 : Img3) (tint : String) (levels : ℤ) (scale : ℚ) : OutImg :=
  let orig_h := img0.h
  let orig_w := img0.w
  let img := preprocess img0
  let small_w := (downsampleSize orig_w scale).toNat
  let small_h := (downsampleSize orig_h scale).toNat
  let small := resizeArea img small_w small_h
  let gray := toGray small
  let h := gray.h
  let w := gray.w
  let tint_bgr := presetsGet tint
  let result : OutImg :=
    { h := h, w := w,
      px := fun y x c =>
        palettePixel (ditherPixel (gray.px y x) (entry (tiledBayer h w) y x) levels)
          (tintChannel tint_bgr c) }
  resizeNearest result orig_w orig_h

/-- Function `apply_kizuato_style`, lines 46-105, including the imread check: `img?`
is the decoder's result, `none` when `cv2.imread` returns `None`. -/
def apply_kizuato_style (preprocess : Img3 → Img3)
    (resizeArea : Img3 → Nat → Nat → Img3)
    (toGray : Img3 → GrayImg)
    (input_path : String) (img? : Option Img3)
    (tint : String) (levels : ℤ) (scale : ℚ) :
    Except FilterError OutImg :=
  match img? with
  | none => .error (.valueError ("Could not read image: " ++ input_path))
  | some img0 => .ok (applyCore preprocess resizeArea toGray img0 tint levels scale)

/-- A concrete 2×2 mid-gray test image. -/
def testImg : Img3 := { h := 2, w := 2, px := fun _ _ _ => 128 }

/-- Concrete instantiation of the preprocessing stage: the identity. -/
def idPreprocess : Img3 → Img3 := fun i => i

/-- Concrete instantiation of the area resize: reshape keeping the pixel map. -/
def constResize : Img3 → Nat → Nat → Img3 := fun i a b => { h := b, w := a, px := i.px }

/-- Concrete instantiation of grayscale conversion: first channel over 255. -/
def firstChannelGray : Img3 → GrayImg :=
  fun i => { h := i.h, w := i.w, px := fun y x => i.px y x 0 / 255 }

lemma npClip_nonneg (x hi : ℚ) (h : 0 ≤ hi) : 0 ≤ npClip x 0 hi :=
  le_min (le_max_right _ _) h

lemma npClip_le (x lo hi : ℚ) : npClip x lo hi ≤ hi := min_le_right _ _

lemma palettePixel_le (q tc : ℚ) : palettePixel q tc ≤ 255 := by
  unfold palettePixel pyTrunc
  rw [if_pos (npClip_nonneg _ _ (by norm_num))]
  have h2 : ⌊npClip (q * tc) 0 255⌋ ≤ (255 : ℤ) := by
    calc ⌊npClip (q * tc) 0 255⌋ ≤ ⌊(255 : ℚ)⌋ := Int.floor_mono (npClip_le _ _ _)
      _ = 255 := by
        rw [show (255 : ℚ) = ((255 : ℤ) : ℚ) by norm_num, Int.floor_intCast]
  omega

/-- C8: when the decoder yields no buffer, the pipeline returns the input
error carrying the input path, and no output image is produced. -/
theorem null_input_error (preprocess : Img3 → Img3)
    (resizeArea : Img3 → Nat → Nat → Img3) (toGray : Img3 → GrayImg)
    (input_path tint : String) (levels : ℤ) (scale : ℚ) :
    apply_kizuato_style preprocess resizeArea toGray input_path none tint levels scale
      = .error (.valueError ("Could not read image: " ++ input_path)) ∧
    ∀ out, apply_kizuato_style preprocess resizeArea toGray input_path none tint
      levels scale ≠ .ok out :=
  ⟨rfl, fun _ h => Except.noConfusion h⟩

/-- C2 counterexample: at a concrete 2×2 image with levels = 1, the pipeline
returns an output normally — no ConfigError (no error at all) is raised. -/
theorem levels_one_no_error :
    apply_kizuato_style idPreprocess constResize firstChannelGray "photo.jpg"
        (some testImg) "green" 1 (1/2)
      = .ok (applyCore idPreprocess constResize firstChannelGray testImg
          "green" 1 (1/2)) := rfl

/-- C2 (amended): the filter code performs no configuration validation. For
every present input image and every levels and scale value — levels = 1 and
scale = 0 included — it produces an output without raising any error; a zero
scale merely yields a downsample target size of 0 that is handed to the
resize library unchecked. The only error the function raises itself is the
unreadable-input ValueError. -/
theorem no_config_validation (preprocess : Img3 → Img3)
    (resizeArea : Img3 → Nat → Nat → Img3) (toGray : Img3 → GrayImg)
    (input_path tint : String) (img : Img3) (levels : ℤ) (scale : ℚ) :
    (∃ out, apply_kizuato_style preprocess resizeArea toGray input_path
      (some img) tint levels scale = .ok out) ∧
    (∀ n, downsampleSize n 0 = 0) := by
  refine ⟨⟨_, rfl⟩, fun n => ?_⟩
  unfold downsampleSize pyTrunc
  norm_num

/-- C5: for every input image and configuration, the pipeline's output buffer
has the input's W×H shape (3 channels by construction of `OutImg`) and every
channel sample is an integer in [0,255]. -/
theorem output_shape_and_range (preprocess : Img3 → Img3)
    (resizeArea : Img3 → Nat → Nat → Img3) (toGray : Img3 → GrayImg)
    (img : Img3) (tint : String) (levels : ℤ) (scale : ℚ) :
    (applyCore preprocess resizeArea toGray img tint levels scale).h = img.h ∧
    (applyCore preprocess resizeArea toGray img tint levels scale).w = img.w ∧
    ∀ y x c, (applyCore preprocess resizeArea toGray img tint levels scale).px y x c
      ≤ 255 := by
  refine ⟨rfl, rfl, fun y x c => ?_⟩
  exact palettePixel_le _ _

/-- C7: a tint name that is not a key of the preset table resolves to the
default green preset, no error is raised, and the pipeline output is
identical to a run passing "green" directly. -/
theorem unknown_tint_fallback (preprocess : Img3 → Img3)
    (resizeArea : Img3 → Nat → Nat → Img3) (toGray : Img3 → GrayImg)
    (input_path : String) (img? : Option Img3) (t : String) (levels : ℤ)
    (scale : ℚ) (h : PRESETS.lookup t = none) :
    apply_kizuato_style preprocess resizeArea toGray input_path img? t levels scale
      = apply_kizuato_style preprocess resizeArea toGray input_path img? "green"
          levels scale := by
  have hget : presetsGet t = presetsGet "green" := by
    unfold presetsGet
    rw [h]
    rfl
  cases img? with
  | none => rfl
  | some img =>
    unfold apply_kizuato_style applyCore
    simp only [hget]

/-- Witness for C7: the unknown name "xyz" gives the same run as "green". -/
theorem unknown_tint_fallback_witness :
    apply_kizuato_style idPreprocess constResize firstChannelGray "photo.jpg"
        (some testImg) "xyz" 16 (12/100)
      = apply_kizuato_style idPreprocess constResize firstChannelGray "photo.jpg"
          (some testImg) "green" 16 (12/100) :=
  unknown_tint_fallback idPreprocess constResize firstChannelGray "photo.jpg"
    (some testImg) "xyz" 16 (12/100) rfl

/-- C4 counterexample: at width 10 and scale 0.19 ∈ (0,1], the code computes
`int(10 × 0.19) = 1` while the claimed `round(10 × 0.19) = 2`. -/
theorem downsample_not_round :
    downsampleSize 10 (19/100) = 1 ∧ round ((10 : ℚ) * (19/100)) = 2 := by
  constructor
  · unfold downsampleSize pyTrunc
    rw [if_pos (by norm_num)]
    rw [show ((10 : ℕ) : ℚ) * (19/100) = 19/10 by norm_num]
    rw [show (1 : ℤ) = ((1 : ℤ)) by rfl, Int.floor_eq_iff]
    constructor
    · norm_num
    · norm_num
  · rw [round_eq]
    rw [show (10 : ℚ) * (19/100) + 1/2 = 12/5 by norm_num]
    rw [Int.floor_eq_iff]
    constructor
    · norm_num
    · norm_num

/-- C4 (amended): for every width `n` and scale in (0,1], the downsample
target size computed by the code is the truncation `⌊n·scale⌋` (floor, the
product being nonnegative) of `n·scale`, not its rounding. -/
theorem downsample_size_floor (n : Nat) (scale : ℚ)
    (h0 : 0 < scale) (h1 : scale ≤ 1) :
    downsampleSize n scale = ⌊(n : ℚ) * scale⌋ := by
  unfold downsampleSize pyTrunc
  rw [if_pos (mul_nonneg (Nat.cast_nonneg n) (le_of_lt h0))]

/-- Witness for C4's amended theorem at n = 10, scale = 1/2. -/
theorem downsample_size_floor_witness :
    downsampleSize 10 (1/2) = ⌊((10 : ℕ) : ℚ) * (1/2)⌋ :=
  downsample_size_floor 10 (1/2) (by norm_num) (by norm_num)

/-- C6 counterexample: at quantized brightness 15/16 and tint channel 210
(the green preset's blue channel), the code outputs ⌊196.875⌋ = 196 while
the claimed rounding gives 197. -/
theorem palette_not_round :
    palettePixel (15/16) 210 = 196 ∧ paletteSpecPixel (15/16) 210 = 197 := by
  have hclip : npClip ((15/16 : ℚ) * 210) 0 255 = 1575/8 := by
    unfold npClip
    rw [max_eq_left (by norm_num), min_eq_left (by norm_num)]
    norm_num
  constructor
  · unfold palettePixel pyTrunc
    rw [hclip, if_pos (by norm_num)]
    rw [show (⌊(1575/8 : ℚ)⌋ : ℤ) = 196 from by
      rw [Int.floor_eq_iff]
      constructor
      · norm_num
      · norm_num]
    rfl
  · unfold paletteSpecPixel
    rw [hclip, round_eq]
    rw [show (1575/8 : ℚ) + 1/2 = 1579/8 by norm_num]
    rw [show (⌊(1579/8 : ℚ)⌋ : ℤ) = 197 from by
      rw [Int.floor_eq_iff]
      constructor
      · norm_num
      · norm_num]
    rfl

/-- C6 (amended): the palette mapper sets each channel to
quantized_brightness × tint[c], clamped to [0,255] and TRUNCATED (floored)
to integer; brightness 0 maps to channel value 0 and brightness 1 maps to
exactly the tint channel, for every integer tint channel in [0,255]. -/
theorem palette_truncates (q : ℚ) (n : ℕ) (hn : n ≤ 255) :
    palettePixel q (n : ℚ) = (⌊npClip (q * (n : ℚ)) 0 255⌋).toNat ∧
    palettePixel 0 (n : ℚ) = 0 ∧
    palettePixel 1 (n : ℚ) = n := by
  have hfloor : ∀ v : ℚ, palettePixel v (n : ℚ)
      = (⌊npClip (v * (n : ℚ)) 0 255⌋).toNat := by
    intro v
    unfold palettePixel pyTrunc
    rw [if_pos (npClip_nonneg _ _ (by norm_num))]
  refine ⟨hfloor q, ?_, ?_⟩
  · rw [hfloor 0, zero_mul]
    unfold npClip
    rw [max_self, min_eq_left (by norm_num : (0 : ℚ) ≤ 255), Int.floor_zero]
    rfl
  · rw [hfloor 1, one_mul]
    unfold npClip
    rw [max_eq_left (Nat.cast_nonneg n),
      min_eq_left (by exact_mod_cast hn), Int.floor_natCast, Int.toNat_natCast]

/-- Witness for C6's amended theorem at q = 1/2, n = 240. -/
theorem palette_truncates_witness :
    palettePixel (1/2) ((240 : ℕ) : ℚ) = (⌊npClip ((1/2) * ((240 : ℕ) : ℚ)) 0 255⌋).toNat ∧
    palettePixel 0 ((240 : ℕ) : ℚ) = 0 ∧
    palettePixel 1 ((240 : ℕ) : ℚ) = 240 :=
  palette_truncates (1/2) 240 (by norm_num)

end Oniazusa
